import Mathlib

/-!
Shallow embedding of the trailer resolution and verification engine of the
rekonime repository (tools/scraper/add_trailers.py and tools/scraper/mal_scraper.py),
together with proofs settling the frozen claims about its specification.

Network effects are modelled by explicit oracles: an embeddability verdict
oracle, a search-result oracle, a per-video upstream fetch outcome, and a JSON
parse oracle (the `json.loads` library call is not re-implemented; extraction
of the embedded JSON document is modelled at the character level exactly as in
the source).  The CPython `urllib.parse` behaviour used by `extract_youtube_id`
(`urlparse`, `parse_qs`, `unquote_plus`) is modelled after the CPython source;
Unicode-only refinements (NFKC netloc validation, UTF-8 multi-byte percent
decoding, full-Unicode lowercasing) are simplified to their ASCII behaviour,
which is the only behaviour the repository's inputs exercise.
-/

namespace Rekonime

/-- Python string truthiness for an optional string: `None` and `""` are falsy;
a truthy value is returned unchanged. -/
def tstr : Option String → Option String
  | none => none
  | some s => if s = "" then none else some s

/-- Python `a or b` on optional strings: the left operand wins when truthy,
otherwise the right operand is returned as-is. -/
def pyOr (a b : Option String) : Option String :=
  match tstr a with
  | some s => some s
  | none => b

/-- Python `a or b` where the result is consumed as a plain string. -/
def pyOrStr (a : Option String) (b : String) : String :=
  match tstr a with
  | some s => s
  | none => b

/-- Python `str.lower()` (character-wise; ASCII behaviour, which is all the
scraper's comparisons rely on). -/
def lowerStr (s : String) : String := ⟨s.data.map Char.toLower⟩

/-- Fixed canonical watch-URL template (`.../watch?v={id}`). -/
def watchUrlOf (videoId : String) : String :=
  "https://www.youtube.com/watch?v=" ++ videoId

/-- Fixed canonical embed-URL template (`.../embed/{id}`). -/
def embedUrlOf (videoId : String) : String :=
  "https://www.youtube.com/embed/" ++ videoId

/-- Fixed canonical thumbnail template (`.../vi/{id}/hqdefault.jpg`). -/
def thumbUrlOf (videoId : String) : String :=
  "https://i.ytimg.com/vi/" ++ videoId ++ "/hqdefault.jpg"

/-! Character-list utilities mirroring the Python string operations used by
`extract_youtube_id` and `extract_player_response`. -/

/-- Index of the first occurrence of a character, as in Python `str.find` for a
single-character needle. -/
def charIdx (c : Char) : List Char → Option Nat
  | [] => none
  | x :: xs => if x = c then some 0 else (charIdx c xs).map (· + 1)

/-- Whether `p` is a leading segment of `l` (Python `str.startswith`). -/
def startsL : List Char → List Char → Bool
  | [], _ => true
  | _ :: _, [] => false
  | p :: ps, c :: cs => p == c && startsL ps cs

/-- Index of the first occurrence of `pat` as a substring (Python `str.find`). -/
def subIdx (pat : List Char) : List Char → Option Nat
  | [] => if startsL pat [] then some 0 else none
  | c :: cs => if startsL pat (c :: cs) then some 0 else (subIdx pat cs).map (· + 1)

/-- Substring containment (Python `in` on strings). -/
def containsSub (pat l : List Char) : Bool := (subIdx pat l).isSome

/-- Python `str.partition(sep)` for a single-character separator, keeping the
part before and the part after the first occurrence (the whole string and an
empty remainder when the separator is absent). -/
def breakAt (c : Char) (l : List Char) : List Char × List Char :=
  (l.takeWhile (· != c), (l.dropWhile (· != c)).drop 1)

/-! Model of the CPython `urllib.parse.urlsplit` / `urlparse` subset exercised
by `extract_youtube_id`. -/

/-- CPython urlsplit removes every tab, CR and LF character from the URL. -/
def dropTabCrLf (l : List Char) : List Char :=
  l.filter (fun c => !(c == '\t' || c == '\r' || c == '\n'))

/-- CPython urlsplit left-strips C0 control characters and spaces. -/
def lstripControl (l : List Char) : List Char :=
  l.dropWhile (fun c => decide (c ≤ ' '))

/-- Characters allowed after the first character of a URL scheme. -/
def isSchemeChar (c : Char) : Bool := c.isAlphanum || c == '+' || c == '-' || c == '.'

/-- CPython urlsplit scheme detection: a leading ASCII letter followed by
scheme characters up to the first `:` is split off and lowercased. -/
def schemeSplit (l : List Char) : List Char × List Char :=
  match charIdx ':' l with
  | none => ([], l)
  | some i =>
    match l with
    | [] => ([], l)
    | c0 :: _ =>
      if 0 < i ∧ c0.isAlpha ∧ (l.take i).all isSchemeChar then
        ((l.take i).map Char.toLower, l.drop (i + 1))
      else ([], l)

/-- CPython `_splitnetloc`: after a leading `//`, the netloc extends to the
first `/`, `?` or `#`. -/
def netlocSplit : List Char → List Char × List Char
  | '/' :: '/' :: rest =>
    (rest.takeWhile (fun c => !(c == '/' || c == '?' || c == '#')),
     rest.dropWhile (fun c => !(c == '/' || c == '?' || c == '#')))
  | l => ([], l)

/-- Result of `urlparse` restricted to the fields the scraper reads. -/
structure UrlParts where
  scheme : List Char
  netloc : List Char
  path : List Char
  query : List Char
  fragment : List Char
deriving DecidableEq, Repr

/-- Model of CPython `urlsplit`, returning `none` where the library raises
`ValueError` (unbalanced IPv6 brackets in the netloc; the further bracketed
host validation and NFKC netloc check, which also raise, are not modelled —
they can only turn a parse into a `None` result of `extract_youtube_id`). -/
def urlsplitChecked (url : List Char) : Option UrlParts :=
  let u0 := dropTabCrLf (lstripControl url)
  let s := schemeSplit u0
  let n := netlocSplit s.2
  if (n.1.contains '[' && !n.1.contains ']') || (n.1.contains ']' && !n.1.contains '[') then
    none
  else
    let f := breakAt '#' n.2
    let q := breakAt '?' f.1
    some ⟨s.1, n.1, q.1, q.2, f.2⟩

/-- CPython `_splitparams`: drop a `;params` suffix from the last path
segment, as `urlparse` does on top of `urlsplit`. -/
def paramsSplit (p : List Char) : List Char :=
  if p.contains ';' then
    if p.contains '/' then
      match charIdx '/' p.reverse with
      | none => p
      | some r =>
        let j := p.length - 1 - r
        match charIdx ';' (p.drop j) with
        | none => p
        | some k => p.take (j + k)
    else p.take ((charIdx ';' p).getD p.length)
  else p

/-- Model of CPython `urlparse` as used by the scraper (`ValueError` as `none`). -/
def urlparseChecked (url : List Char) : Option UrlParts :=
  (urlsplitChecked url).map (fun p => { p with path := paramsSplit p.path })

/-! Model of CPython `parse_qs` with default arguments (split on `&`, skip
empty fields, fields without `=` and empty values, `unquote_plus` names and
values). -/

/-- Split on `&`, as Python `str.split('&')`. -/
def splitOnAmp : List Char → List (List Char)
  | [] => [[]]
  | c :: rest =>
    if c = '&' then [] :: splitOnAmp rest
    else
      match splitOnAmp rest with
      | [] => [[c]]
      | h :: t => (c :: h) :: t

/-- ASCII hex digit test, as accepted by CPython `unquote`. -/
def isHexDigitCh (c : Char) : Bool :=
  (decide ('0' ≤ c) && decide (c ≤ '9')) ||
  (decide ('a' ≤ c) && decide (c ≤ 'f')) ||
  (decide ('A' ≤ c) && decide (c ≤ 'F'))

/-- Numeric value of an ASCII hex digit. -/
def hexVal (c : Char) : Nat :=
  if decide ('0' ≤ c) && decide (c ≤ '9') then c.toNat - 48
  else if decide ('a' ≤ c) && decide (c ≤ 'f') then c.toNat - 87
  else c.toNat - 55

/-- Model of CPython `unquote_plus`: `+` becomes a space, `%XX` with two hex
digits becomes the character with that code (the real library decodes UTF-8
byte sequences; the single-byte view suffices for the ASCII inputs in play),
and an invalid escape is kept literally. -/
def unquotePlus : List Char → List Char
  | [] => []
  | c :: rest =>
    if c = '+' then ' ' :: unquotePlus rest
    else if c = '%' then
      match rest with
      | a :: b :: rest2 =>
        if isHexDigitCh a && isHexDigitCh b then
          Char.ofNat (hexVal a * 16 + hexVal b) :: unquotePlus rest2
        else c :: unquotePlus (a :: b :: rest2)
      | r => c :: unquotePlus r
    else c :: unquotePlus rest
termination_by l => l.length
decreasing_by all_goals (simp; try omega)

/-- One field of a query string, as CPython `parse_qsl` treats it with default
arguments: empty fields, fields without `=` and fields with an empty value are
skipped; name and value are unquoted. -/
def qslField (nv : List Char) : Option (List Char × List Char) :=
  if nv = [] then none
  else
    let name := nv.takeWhile (· != '=')
    let rest := nv.dropWhile (· != '=')
    match rest with
    | [] => none
    | _ :: value =>
      if value = [] then none
      else some (unquotePlus name, unquotePlus value)

/-- Model of CPython `parse_qsl` with default arguments. -/
def qslPairs (qs : List Char) : List (List Char × List Char) :=
  (splitOnAmp qs).filterMap qslField

/-- First value listed under `name` by `parse_qs`, i.e. the Python expression
`parse_qs(query).get(name, [None])[0]`. -/
def qsFirst (name : List Char) (qs : List Char) : Option (List Char) :=
  ((qslPairs qs).find? (fun p => p.1 == name)).map (·.2)

/-- Embedding of `extract_youtube_id` (add_trailers.py lines 47–69, identical
to `MALScraper._extract_youtube_id`), on character lists. -/
def extractIdL (url : List Char) : Option (List Char) :=
  if url = [] then none
  else
    match urlparseChecked url with
    | none => none
    | some p =>
      let host := p.netloc.map Char.toLower
      let path := p.path
      if containsSub "youtu.be".data host then
        let tok := (path.dropWhile (· == '/')).takeWhile (· != '/')
        if tok = [] then none else some tok
      else if containsSub "youtube.com".data host || containsSub "youtube-nocookie.com".data host then
        if startsL "/embed/".data path then
          let tok := (path.drop 7).takeWhile (· != '/')
          if tok = [] then none else some tok
        else if path = "/watch".data then qsFirst ['v'] p.query
        else none
      else none

/-- Embedding of `extract_youtube_id` on strings. -/
def extract_youtube_id (url : String) : Option String :=
  (extractIdL url.data).map (fun l => ⟨l⟩)

/-! Canonical trailer shape and the two provider normalizers. -/

/-- Canonical trailer dictionary produced by the normalizers and by
`build_youtube_trailer`; the `id` field can be `None` in the Jikan case. -/
structure Trailer where
  site : String
  id : Option String
  url : String
  embedUrl : String
  thumbnail : String
  source : String
deriving DecidableEq, Repr

/-- Raw AniList (provider A) trailer object: fields `site`, `id`, `thumbnail`. -/
structure AnilistRawTrailer where
  site : Option String
  id : Option String
  thumbnail : Option String
deriving DecidableEq, Repr

/-- Raw Jikan (provider B) trailer object: fields `youtube_id`, `url`,
`embed_url`. -/
structure JikanRawTrailer where
  youtube_id : Option String
  url : Option String
  embed_url : Option String
deriving DecidableEq, Repr

/-- Embedding of `normalize_anilist_trailer` (add_trailers.py lines 72–88,
identical to `MALScraper._normalize_anilist_trailer`); `none` input stands for
a falsy (absent or empty) trailer dict. -/
def normalize_anilist_trailer (t : Option AnilistRawTrailer) : Option Trailer :=
  match t with
  | none => none
  | some tr =>
    let site := lowerStr (tr.site.getD "")
    match tstr tr.id with
    | none => none
    | some vid =>
      if site = "youtube" then
        some { site := "youtube", id := some vid,
               url := watchUrlOf vid, embedUrl := embedUrlOf vid,
               thumbnail := pyOrStr tr.thumbnail (thumbUrlOf vid),
               source := "anilist" }
      else none

/-- Embedding of `normalize_jikan_trailer` (add_trailers.py lines 91–112,
identical to `MALScraper._normalize_jikan_trailer`). -/
def normalize_jikan_trailer (t : Option JikanRawTrailer) : Option Trailer :=
  match t with
  | none => none
  | some tr =>
    let vid := pyOr tr.youtube_id
      (pyOr (extract_youtube_id (tr.embed_url.getD ""))
            (extract_youtube_id (tr.url.getD "")))
    if tstr vid = none ∧ tstr tr.url = none ∧ tstr tr.embed_url = none then none
    else
      some { site := "youtube", id := vid,
             url := pyOrStr tr.url
               (match tstr vid with | some v => watchUrlOf v | none => ""),
             embedUrl := pyOrStr tr.embed_url
               (match tstr vid with | some v => embedUrlOf v | none => ""),
             thumbnail :=
               (match tstr vid with | some v => thumbUrlOf v | none => ""),
             source := "jikan" }

/-- Embedding of `build_youtube_trailer` (add_trailers.py lines 115–123,
identical to `MALScraper._build_youtube_trailer`). -/
def build_youtube_trailer (videoId source : String) : Trailer :=
  { site := "youtube", id := some videoId, url := watchUrlOf videoId,
    embedUrl := embedUrlOf videoId, thumbnail := thumbUrlOf videoId,
    source := source }

/-- Characters of a well-formed video id, per the platform's id pattern
`[a-zA-Z0-9_-]` used by the search-result extractor. -/
def isIdChar (c : Char) : Bool := c.isAlphanum || c == '_' || c == '-'

/-- The canonical (already-normalized) candidate with the given id and
provenance: site youtube and url, embedUrl, thumbnail equal to the fixed
templates. -/
def canonicalCandidate (v src : String) : Trailer :=
  ⟨"youtube", some v, watchUrlOf v, embedUrlOf v, thumbUrlOf v, src⟩

/-- Field view of a canonical candidate dict as a provider-A raw trailer:
`normalize_anilist_trailer` reads the keys `site`, `id` and `thumbnail`, all
present in the canonical dict. -/
def anilistViewOf (t : Trailer) : AnilistRawTrailer :=
  ⟨some t.site, t.id, some t.thumbnail⟩

/-- Field view of a canonical candidate dict as a provider-B raw trailer: the
keys `youtube_id` and `embed_url` read by `normalize_jikan_trailer` are absent
from the canonical dict (which spells them `id` and `embedUrl`), so only the
shared key `url` carries a value. -/
def jikanViewOf (t : Trailer) : JikanRawTrailer :=
  ⟨none, some t.url, none⟩

/-! The embedded player-response extractor. -/

/-- Fixed textual marker locating the embedded JSON status object. -/
def playerMarker : String := "ytInitialPlayerResponse = "

/-- Character scanner of `extract_player_response`: from the position just
after the marker it tracks double-quoted-string state (honouring backslash
escapes), counts brace depth outside strings only, and reports the length of
the segment ending where depth returns to zero (`none` when the scan runs off
the end).  Depth is an integer, as in Python. -/
def scanAux : List Char → Int → Bool → Bool → Option Nat
  | [], _, _, _ => none
  | c :: cs, depth, inStr, escp =>
    if inStr then
      if escp then (scanAux cs depth true false).map (· + 1)
      else if c == '\\' then (scanAux cs depth true true).map (· + 1)
      else if c == '"' then (scanAux cs depth false false).map (· + 1)
      else (scanAux cs depth true false).map (· + 1)
    else
      if c == '"' then (scanAux cs depth true escp).map (· + 1)
      else if c == '{' then (scanAux cs (depth + 1) false escp).map (· + 1)
      else if c == '}' then
        if depth - 1 = 0 then some 1
        else (scanAux cs (depth - 1) false escp).map (· + 1)
      else (scanAux cs depth false escp).map (· + 1)

/-- Embedding of `extract_player_response` (add_trailers.py lines 126–165,
identical to `MALScraper._extract_player_response`) up to the final
`json.loads` call: it returns the raw substring between the marker and the
position where brace depth returns to zero, which the source then parses. -/
def extract_player_response_raw (html : List Char) : Option (List Char) :=
  match subIdx playerMarker.data html with
  | none => none
  | some i =>
    let body := html.drop (i + playerMarker.data.length)
    match scanAux body 0 false false with
    | none => none
    | some e => some (body.take e)

/-! A grammar of balanced JSON-like objects, used to state what the extractor
must return. -/

/-- Item of a double-quoted JSON string: a plain character or a
backslash-escape pair. -/
inductive SItem : Type where
  | plain : Char → SItem
  | esc : Char → SItem
deriving DecidableEq, Repr

/-- Characters of one string item. -/
def sitemChars : SItem → List Char
  | .plain c => [c]
  | .esc c => ['\\', c]

/-- Characters of a string body. -/
def sitemsChars (l : List SItem) : List Char := (l.map sitemChars).flatten

/-- Body of a balanced JSON-like object: a sequence of plain characters,
double-quoted strings and nested braced objects. -/
inductive JBody : Type where
  | nil : JBody
  | plainC : Char → JBody → JBody
  | strC : List SItem → JBody → JBody
  | objC : JBody → JBody → JBody
deriving DecidableEq, Repr

/-- Characters of an object body. -/
def jbodyChars : JBody → List Char
  | .nil => []
  | .plainC c k => c :: jbodyChars k
  | .strC s k => '"' :: (sitemsChars s ++ ('"' :: jbodyChars k))
  | .objC b k => '{' :: (jbodyChars b ++ ('}' :: jbodyChars k))

/-- A plain string character may not be a quote or a backslash. -/
def sitemOK : SItem → Bool
  | .plain c => !(c == '"') && !(c == '\\')
  | .esc _ => true

/-- A plain body character may not be a quote or a brace. -/
def jbodyOK : JBody → Bool
  | .nil => true
  | .plainC c k => !(c == '"') && !(c == '{') && !(c == '}') && jbodyOK k
  | .strC s k => s.all sitemOK && jbodyOK k
  | .objC b k => jbodyOK b && jbodyOK k

/-- Character sequence of the full balanced object `{body}`. -/
def jObjChars (b : JBody) : List Char := '{' :: (jbodyChars b ++ ['}'])

/-! Playability verdict and the verifier with its cache. -/

/-- Nested playability object of a parsed player response. -/
structure PlayabilityStatus where
  status : Option String
  playableInEmbed : Option Bool
deriving DecidableEq, Repr

/-- Parsed player response, restricted to the field the verifier reads. -/
structure PlayerResponse where
  playabilityStatus : Option PlayabilityStatus
deriving DecidableEq, Repr

/-- Verdict computation of `is_embeddable` from a parsed player response:
`status == "OK" and playable_in_embed is not False` with `{}` defaults. -/
def embeddableOf (data : PlayerResponse) : Bool :=
  let p := data.playabilityStatus.getD ⟨none, none⟩
  decide (p.status = some "OK") && decide (p.playableInEmbed ≠ some false)

/-- Transport-level failures of an HTTP call (`requests.RequestException`). -/
inductive TransportErr : Type where
  | timeout
  | connFail
deriving DecidableEq, Repr

/-- Outcome of one fetch episode for a watch page (after the internal 429
retry): a transport failure, a final non-OK status, or an OK response body. -/
inductive UpOutcome : Type where
  | terr : TransportErr → UpOutcome
  | notOk : UpOutcome
  | okBody : String → UpOutcome
deriving DecidableEq, Repr

/-- Extraction followed by the JSON parse, as in the tail of
`extract_player_response`; `parse` is the `json.loads` oracle, returning
`none` on a `JSONDecodeError`. -/
def extractParse (parse : String → Option PlayerResponse) (html : String) :
    Option PlayerResponse :=
  match extract_player_response_raw html.data with
  | none => none
  | some s => parse ⟨s⟩

/-- Embedding of `fetch_player_response` (add_trailers.py lines 168–182):
the `session.get` calls are not wrapped in `try/except`, so a transport error
propagates to the caller (`Except.error`). -/
def fetch_player_response (parse : String → Option PlayerResponse) :
    UpOutcome → Except TransportErr (Option PlayerResponse)
  | .terr e => .error e
  | .notOk => .ok none
  | .okBody h => .ok (extractParse parse h)

/-- Embedding of `MALScraper._fetch_player_response` (mal_scraper.py lines
376–390): `requests.RequestException` is caught and collapses to `None`. -/
def fetch_player_response_mal (parse : String → Option PlayerResponse) :
    UpOutcome → Option PlayerResponse
  | .terr _ => none
  | .notOk => none
  | .okBody h => extractParse parse h

/-- Per-run embeddability cache: a lookup-observable model of the Python dict
(an insert shadows any earlier binding of the same key). -/
abbrev EmbedCache := List (String × Bool)

/-- Dict lookup (`video_id in cache` / `cache[video_id]`). -/
def cacheLookup (c : EmbedCache) (k : String) : Option Bool :=
  (c.find? (fun p => p.1 == k)).map (·.2)

/-- Dict update (`cache[video_id] = b`). -/
def cacheInsert (c : EmbedCache) (k : String) (v : Bool) : EmbedCache :=
  (k, v) :: c

/-- Embedding of `is_embeddable` (add_trailers.py lines 185–200); `fO` gives
the fetch outcome per video id.  The Python `if not data` branch also covers a
parsed-but-falsy `{}` document, which yields the same `False` verdict as
`embeddableOf` on an empty response, so the two are not distinguished. -/
def is_embeddable (parse : String → Option PlayerResponse) (fO : String → UpOutcome)
    (videoId : String) (cache : EmbedCache) : Except TransportErr (Bool × EmbedCache) :=
  match cacheLookup cache videoId with
  | some b => .ok (b, cache)
  | none =>
    match fetch_player_response parse (fO videoId) with
    | .error e => .error e
    | .ok none => .ok (false, cacheInsert cache videoId false)
    | .ok (some data) => .ok (embeddableOf data, cacheInsert cache videoId (embeddableOf data))

/-- Failure modes of one embeddability check, as enumerated by the claim:
transport errors, a final non-OK status, and an OK body whose marker search,
brace balancing or JSON parse fails. -/
def failedOutcome (parse : String → Option PlayerResponse) : UpOutcome → Prop
  | .terr _ => True
  | .notOk => True
  | .okBody h => extractParse parse h = none

/-- Embedding of `MALScraper._is_youtube_embeddable` (mal_scraper.py lines
392–406): total, since its fetch catches transport errors. -/
def is_youtube_embeddable (parse : String → Option PlayerResponse)
    (fO : String → UpOutcome) (videoId : String) (cache : EmbedCache) :
    Bool × EmbedCache :=
  match cacheLookup cache videoId with
  | some b => (b, cache)
  | none =>
    match fetch_player_response_mal parse (fO videoId) with
    | none => (false, cacheInsert cache videoId false)
    | some data => (embeddableOf data, cacheInsert cache videoId (embeddableOf data))

/-! The search fallback.  A fixed per-run environment is modelled by two
oracles: `E`, the embeddability verdict per video id (as produced by the
memoizing verifier, whose verdict per id is fixed within a run), and `S`, the
candidate id list extracted from the search page for a query (first-seen
order, deduplicated, capped at 12 — the order in which the source iterates). -/

/-- Ordered search queries for a title. -/
def queriesFor (title : String) : List String :=
  [title ++ " official trailer", title ++ " trailer", title ++ " PV"]

/-- Inner candidate loop of `find_embeddable_trailer`: skip blocked ids,
return the first id the verifier accepts. -/
def firstEligible (E : String → Bool) (blocked : List String) : List String → Option String
  | [] => none
  | v :: vs =>
    if v ∈ blocked then firstEligible E blocked vs
    else if E v then some v
    else firstEligible E blocked vs

/-- Outer query loop of `find_embeddable_trailer`. -/
def searchQueriesLoop (E : String → Bool) (S : String → List String)
    (blocked : List String) : List String → Option String
  | [] => none
  | q :: qs =>
    match firstEligible E blocked (S q) with
    | some v => some v
    | none => searchQueriesLoop E S blocked qs

/-- Embedding of `find_embeddable_trailer` (add_trailers.py lines 236–257). -/
def find_embeddable_trailer (E : String → Bool) (S : String → List String)
    (title : String) (blocked : List String) : Option Trailer :=
  (searchQueriesLoop E S blocked (queriesFor title)).map
    (fun v => build_youtube_trailer v "youtube-search")

/-- Embedding of `MALScraper._find_embeddable_trailer` (mal_scraper.py lines
447–465): identical except for the leading `if not title: return None`
guard. -/
def find_embeddable_trailer_mal (E : String → Bool) (S : String → List String)
    (title : String) (blocked : List String) : Option Trailer :=
  if title = "" then none
  else find_embeddable_trailer E S title blocked

/-! The two orchestrations. -/

/-- Video id the orchestrators resolve for an already-normalized candidate:
`candidate.get("id") or extract_youtube_id(candidate.get("url", ""))`,
then the falsy check `if not video_id`. -/
def candVid (c : Trailer) : Option String :=
  tstr (pyOr c.id (extract_youtube_id c.url))

/-- Candidate loop of `MALScraper._select_embeddable_trailer` over the
(candidate, source-name) pairs, accumulating blocked ids: an embeddable
candidate is returned with its id and source written back, a blocked one adds
its id to the blocked set. -/
def selectLoop (E : String → Bool) :
    List (Option Trailer × String) → List String → Trailer ⊕ List String
  | [], blocked => .inr blocked
  | (c, src) :: rest, blocked =>
    match c with
    | none => selectLoop E rest blocked
    | some cand =>
      match candVid cand with
      | none => selectLoop E rest blocked
      | some vid =>
        if E vid then
          .inl { cand with id := some vid, source := pyOrStr (some cand.source) src }
        else selectLoop E rest (blocked ++ [vid])

/-- Embedding of `MALScraper._select_embeddable_trailer` (mal_scraper.py lines
467–487): the per-item orchestration applied to the two normalized provider
candidates. -/
def select_embeddable_trailer (E : String → Bool) (S : String → List String)
    (title : String) (anilistTrailer jikanTrailer : Option Trailer) : Option Trailer :=
  match selectLoop E [(anilistTrailer, "anilist"), (jikanTrailer, "jikan")] [] with
  | .inl t => some t
  | .inr blocked => find_embeddable_trailer_mal E S title blocked

/-- Acquire pass of add_trailers `main` projected to one entry with no prior
trailer: provider A's normalized candidate if valid, else provider B's. -/
def acquireEntry (a : Option AnilistRawTrailer) (j : Option JikanRawTrailer) :
    Option Trailer :=
  match normalize_anilist_trailer a with
  | some t => some t
  | none => normalize_jikan_trailer j

/-- Verify-and-repair pass of add_trailers `main` (lines 417–450) projected to
one entry: keep an embeddable trailer (writing back the resolved id), search
for a replacement when blocked (the blocked set is the single failing id),
remove the trailer when the search fails, and skip (keep untouched) a trailer
with no resolvable id. -/
def verifyRepairEntry (E : String → Bool) (S : String → List String)
    (title : String) (tr : Option Trailer) : Option Trailer :=
  match tr with
  | none => none
  | some t =>
    match candVid t with
    | none => some t
    | some vid =>
      if E vid then some { t with id := some vid }
      else
        match find_embeddable_trailer E S title [vid] with
        | some alt => some alt
        | none => none

/-- The batched two-pass orchestration of add_trailers `main`, per entry. -/
def addTrailersEntry (E : String → Bool) (S : String → List String) (title : String)
    (a : Option AnilistRawTrailer) (j : Option JikanRawTrailer) : Option Trailer :=
  verifyRepairEntry E S title (acquireEntry a j)

/-- The per-item orchestration of mal_scraper `scrape_anime`, per entry. -/
def malScraperEntry (E : String → Bool) (S : String → List String) (title : String)
    (a : Option AnilistRawTrailer) (j : Option JikanRawTrailer) : Option Trailer :=
  select_embeddable_trailer E S title
    (normalize_anilist_trailer a) (normalize_jikan_trailer j)

/-! Helper lemmas about the Python-truthiness combinators and the cache. -/

theorem tstr_eq_some {o : Option String} {s : String} (h : tstr o = some s) : s ≠ "" := by
  cases o with
  | none => exact absurd h (by simp [tstr])
  | some t =>
    by_cases ht : t = ""
    · simp [tstr, ht] at h
    · simp [tstr, ht] at h
      exact h ▸ ht

theorem tstr_some_of_ne {s : String} (h : s ≠ "") : tstr (some s) = some s := by
  simp [tstr, h]

theorem pyOr_some_of_ne {s : String} (h : s ≠ "") (b : Option String) :
    pyOr (some s) b = some s := by
  simp [pyOr, tstr, h]

theorem pyOrStr_some_of_ne {s : String} (h : s ≠ "") (b : String) :
    pyOrStr (some s) b = s := by
  simp [pyOrStr, tstr, h]

theorem cacheLookup_insert_self (c : EmbedCache) (k : String) (v : Bool) :
    cacheLookup (cacheInsert c k v) k = some v := by
  simp [cacheLookup, cacheInsert, List.find?]

theorem cacheLookup_insert_ne (c : EmbedCache) (k k' : String) (v : Bool) (h : k' ≠ k) :
    cacheLookup (cacheInsert c k' v) k = cacheLookup c k := by
  have hb : (k' == k) = false := beq_eq_false_iff_ne.mpr h
  simp [cacheLookup, cacheInsert, List.find?, hb]

/-! Claim C6: the verdict computed from a parsed player response. -/

/-- C6: for every successfully parsed player response the verifier's verdict
is true iff the nested playability status equals "OK" and playableInEmbed is
not false; in particular status "OK" with playableInEmbed absent yields true,
status "OK" with playableInEmbed false yields false, and status
"LOGIN_REQUIRED" yields false; and on a successful parse the (uncached)
verifier returns exactly this verdict. -/
theorem C6_embeddable_verdict :
    (∀ d : PlayerResponse,
        embeddableOf d = true ↔
          ((d.playabilityStatus.getD ⟨none, none⟩).status = some "OK" ∧
           (d.playabilityStatus.getD ⟨none, none⟩).playableInEmbed ≠ some false)) ∧
    embeddableOf ⟨some ⟨some "OK", none⟩⟩ = true ∧
    embeddableOf ⟨some ⟨some "OK", some false⟩⟩ = false ∧
    (∀ pb, embeddableOf ⟨some ⟨some "LOGIN_REQUIRED", pb⟩⟩ = false) ∧
    (∀ parse fO videoId cache d, cacheLookup cache videoId = none →
        fetch_player_response_mal parse (fO videoId) = some d →
        (is_youtube_embeddable parse fO videoId cache).1 = embeddableOf d) := by
  refine ⟨?_, by decide, by decide, ?_, ?_⟩
  · intro d
    simp [embeddableOf]
  · intro pb
    simp [embeddableOf]
  · intro parse fO videoId cache d hmiss hfetch
    simp [is_youtube_embeddable, hmiss, hfetch]

/-- Witness for C6: a concrete "OK"/absent parse flows through the verifier to
verdict true. -/
theorem C6_embeddable_verdict_witness :
    (is_youtube_embeddable (fun _ => some ⟨some ⟨some "OK", none⟩⟩)
        (fun _ => UpOutcome.okBody ("ytInitialPlayerResponse = " ++ (⟨jObjChars .nil⟩ : String)))
        "abc12345678" []).1
      = embeddableOf ⟨some ⟨some "OK", none⟩⟩ :=
  C6_embeddable_verdict.2.2.2.2 (fun _ => some ⟨some ⟨some "OK", none⟩⟩)
    (fun _ => UpOutcome.okBody ("ytInitialPlayerResponse = " ++ (⟨jObjChars .nil⟩ : String)))
    "abc12345678" [] ⟨some ⟨some "OK", none⟩⟩ rfl rfl

/-! Claim C3: provider-B normalization and unresolvable video ids. -/

/-- C3 fails on the code: a provider-B raw trailer with no resolvable video id
but a non-empty non-YouTube `url` field is not discarded — normalization
returns a non-null candidate whose `id` is None, contradicting the claim that
every such candidate is discarded. -/
theorem C3_counterexample :
    normalize_jikan_trailer (some ⟨none, some "https://vimeo.com/123", none⟩)
      = some ⟨"youtube", none, "https://vimeo.com/123", "", "", "jikan"⟩ := by
  decide

/-- C3 amended: provider-B normalization discards the raw trailer (returns
null) exactly when no video id is resolvable and the `url` and `embed_url`
fields are both falsy; consequently a non-null normalized candidate either
carries a resolvable video id or retains a non-empty provider `url` or
`embed_url`. -/
theorem C3_amended_jikan_discard :
    (∀ tr : JikanRawTrailer,
        normalize_jikan_trailer (some tr) = none ↔
          (tstr (pyOr tr.youtube_id
              (pyOr (extract_youtube_id (tr.embed_url.getD ""))
                    (extract_youtube_id (tr.url.getD "")))) = none ∧
           tstr tr.url = none ∧ tstr tr.embed_url = none)) ∧
    (∀ tr c, normalize_jikan_trailer (some tr) = some c →
        tstr c.id = none → c.url ≠ "" ∨ c.embedUrl ≠ "") := by
  constructor
  · intro tr
    simp only [normalize_jikan_trailer]
    split
    · simp_all
    · simp_all
  · intro tr c hc hid
    simp only [normalize_jikan_trailer] at hc
    split at hc
    · exact absurd hc (by simp)
    · rename_i hcond
      have hc' := hc
      injection hc' with hc''
      subst hc''
      simp only [not_and_or] at hcond
      rcases hcond with h1 | h2 | h3
      · exact absurd hid h1
      · left
        cases hu : tstr tr.url with
        | none => exact absurd hu h2
        | some u =>
          have : pyOrStr tr.url
              (match tstr (pyOr tr.youtube_id
                (pyOr (extract_youtube_id (tr.embed_url.getD ""))
                      (extract_youtube_id (tr.url.getD "")))) with
               | some v => watchUrlOf v | none => "") = u := by
            simp [pyOrStr, hu]
          simp only [this]
          exact tstr_eq_some hu
      · right
        cases hu : tstr tr.embed_url with
        | none => exact absurd hu h3
        | some u =>
          have : pyOrStr tr.embed_url
              (match tstr (pyOr tr.youtube_id
                (pyOr (extract_youtube_id (tr.embed_url.getD ""))
                      (extract_youtube_id (tr.url.getD "")))) with
               | some v => embedUrlOf v | none => "") = u := by
            simp [pyOrStr, hu]
          simp only [this]
          exact tstr_eq_some hu

/-- Witness for C3's amended theorem: the discarding direction at a concrete
fully-falsy raw trailer, and the retention disjunction at the counterexample
input. -/
theorem C3_amended_jikan_discard_witness :
    normalize_jikan_trailer (some ⟨none, none, some ""⟩) = none ∧
    ("https://vimeo.com/123" ≠ "" ∨ "" ≠ "") :=
  ⟨(C3_amended_jikan_discard.1 ⟨none, none, some ""⟩).mpr (by decide),
   C3_amended_jikan_discard.2 ⟨none, some "https://vimeo.com/123", none⟩
     ⟨"youtube", none, "https://vimeo.com/123", "", "", "jikan"⟩ (by decide) (by decide)⟩

/-! Claim C8: cache population and memoization. -/

/-- C8: the embeddability cache is populated on first verification and never
invalidated within a run: whenever a call returns verdict `b` for an id, the
verdict is cached under that id; every later call for the same id (in either
implementation) returns `b` with the cache unchanged for every fetch/parse
oracle — hence performs no further network fetch — and a later call for any
other id leaves the cached verdict intact. -/
theorem C8_cache_memoization (parse : String → Option PlayerResponse)
    (fO : String → UpOutcome) (videoId : String) (cache : EmbedCache)
    (b : Bool) (c' : EmbedCache)
    (h : is_youtube_embeddable parse fO videoId cache = (b, c')) :
    cacheLookup c' videoId = some b ∧
    (∀ parse' fO', is_youtube_embeddable parse' fO' videoId c' = (b, c')) ∧
    (∀ parse' fO', is_embeddable parse' fO' videoId c' = .ok (b, c')) ∧
    (∀ parse' fO' vid',
        cacheLookup (is_youtube_embeddable parse' fO' vid' c').2 videoId = some b) := by
  have hl : cacheLookup c' videoId = some b := by
    unfold is_youtube_embeddable at h
    cases hm : cacheLookup cache videoId with
    | some b0 =>
      rw [hm] at h
      simp only [Prod.mk.injEq] at h
      obtain ⟨hb, hc⟩ := h
      rw [← hc, ← hb]
      exact hm
    | none =>
      rw [hm] at h
      cases hf : fetch_player_response_mal parse (fO videoId) with
      | none =>
        rw [hf] at h
        simp only [Prod.mk.injEq] at h
        obtain ⟨hb, hc⟩ := h
        rw [← hc, ← hb]
        exact cacheLookup_insert_self cache videoId false
      | some data =>
        rw [hf] at h
        simp only [Prod.mk.injEq] at h
        obtain ⟨hb, hc⟩ := h
        rw [← hc, ← hb]
        exact cacheLookup_insert_self cache videoId (embeddableOf data)
  refine ⟨hl, ?_, ?_, ?_⟩
  · intro parse' fO'
    unfold is_youtube_embeddable
    rw [hl]
  · intro parse' fO'
    unfold is_embeddable
    rw [hl]
  · intro parse' fO' vid'
    by_cases hv : vid' = videoId
    · subst hv
      unfold is_youtube_embeddable
      rw [hl]
      exact hl
    · unfold is_youtube_embeddable
      cases hm' : cacheLookup c' vid' with
      | some b0 => exact hl
      | none =>
        cases hf : fetch_player_response_mal parse' (fO' vid') with
        | none => exact (cacheLookup_insert_ne c' videoId vid' false hv).symm ▸ hl
        | some data =>
          exact (cacheLookup_insert_ne c' videoId vid' (embeddableOf data) hv).symm ▸ hl

/-- Witness for C8: after a first (miss) verification of a concrete id, a
repeat call with different oracles returns the cached verdict and leaves the
cache unchanged. -/
theorem C8_cache_memoization_witness :
    is_youtube_embeddable (fun _ => some ⟨some ⟨some "OK", none⟩⟩)
        (fun _ => UpOutcome.terr TransportErr.timeout) "abc12345678"
        [("abc12345678", false)]
      = (false, [("abc12345678", false)]) :=
  (C8_cache_memoization (fun _ => none) (fun _ => UpOutcome.notOk) "abc12345678" []
      false [("abc12345678", false)] rfl).2.1
    (fun _ => some ⟨some ⟨some "OK", none⟩⟩) (fun _ => UpOutcome.terr TransportErr.timeout)

/-! Claim C4: failure collapse of the embeddability check. -/

/-- C4 fails on the code: in add_trailers, a network timeout inside
`fetch_player_response` (whose `session.get` calls are not wrapped in
`try/except`, unlike mal_scraper's) propagates out of `is_embeddable` as an
exception to the caller instead of collapsing to the result false. -/
theorem C4_counterexample :
    is_embeddable (fun _ => none) (fun _ => UpOutcome.terr TransportErr.timeout)
        "abc12345678" [] = Except.error TransportErr.timeout := rfl

/-- C4 amended: mal_scraper's `_is_youtube_embeddable` never raises and
collapses every failure mode (transport error, non-OK status, missing marker,
unbalanced extraction, unparsable JSON) to false; add_trailers'
`is_embeddable` collapses the non-transport failures to false but propagates
transport errors (timeout, connection failure) to its caller. -/
theorem C4_amended_failure_collapse (parse : String → Option PlayerResponse)
    (fO : String → UpOutcome) (videoId : String) (cache : EmbedCache)
    (hmiss : cacheLookup cache videoId = none)
    (hfail : failedOutcome parse (fO videoId)) :
    is_youtube_embeddable parse fO videoId cache
        = (false, cacheInsert cache videoId false) ∧
    (∀ e, fO videoId = .terr e → is_embeddable parse fO videoId cache = .error e) ∧
    ((∀ e, fO videoId ≠ .terr e) →
        is_embeddable parse fO videoId cache
          = .ok (false, cacheInsert cache videoId false)) := by
  refine ⟨?_, ?_, ?_⟩
  · unfold is_youtube_embeddable
    rw [hmiss]
    cases ho : fO videoId with
    | terr _ => simp [fetch_player_response_mal]
    | notOk => simp [fetch_player_response_mal]
    | okBody hb =>
      have hx : extractParse parse hb = none := by
        rw [ho] at hfail
        exact hfail
      simp [fetch_player_response_mal, hx]
  · intro e he
    unfold is_embeddable
    rw [hmiss, he]
    rfl
  · intro hnt
    unfold is_embeddable
    rw [hmiss]
    cases ho : fO videoId with
    | terr e => exact absurd ho (hnt e)
    | notOk => rfl
    | okBody hb =>
      have hx : extractParse parse hb = none := by
        rw [ho] at hfail
        exact hfail
      simp [fetch_player_response, hx]

/-- Witness for C4's amended theorem: a non-OK final status collapses to false
in both implementations, starting from an empty cache. -/
theorem C4_amended_failure_collapse_witness :
    is_youtube_embeddable (fun _ => none) (fun _ => UpOutcome.notOk) "abc12345678" []
        = (false, [("abc12345678", false)]) ∧
    is_embeddable (fun _ => none) (fun _ => UpOutcome.notOk) "abc12345678" []
        = .ok (false, [("abc12345678", false)]) :=
  ⟨(C4_amended_failure_collapse (fun _ => none) (fun _ => UpOutcome.notOk)
      "abc12345678" [] rfl trivial).1,
   (C4_amended_failure_collapse (fun _ => none) (fun _ => UpOutcome.notOk)
      "abc12345678" [] rfl trivial).2.2 (fun _ h => UpOutcome.noConfusion h)⟩

/-! Claim C1: behaviour when neither provider yields a candidate. -/

/-- C1 fails on the code: in mal_scraper's per-item orchestration, when
neither provider yields a valid normalized candidate the search fallback IS
consulted — with a search oracle producing an embeddable id, the entry
resolves to that search result instead of null. -/
theorem C1_counterexample :
    malScraperEntry (fun _ => true) (fun _ => ["abcdefghijk"]) "T" none none
      = some (build_youtube_trailer "abcdefghijk" "youtube-search") := rfl

/-- C1 amended: in add_trailers' batched orchestration an entry for which
neither provider yields a valid normalized candidate resolves to null, with a
result independent of the verifier and search oracles (so the search fallback
is never consulted); in mal_scraper's per-item orchestration such an entry
instead hands over to the search fallback with an empty blocked set (subject
to that function's empty-title guard). -/
theorem C1_amended_no_candidate (E : String → Bool) (S : String → List String)
    (title : String) (a : Option AnilistRawTrailer) (j : Option JikanRawTrailer)
    (ha : normalize_anilist_trailer a = none) (hj : normalize_jikan_trailer j = none) :
    addTrailersEntry E S title a j = none ∧
    malScraperEntry E S title a j = find_embeddable_trailer_mal E S title [] := by
  constructor
  · simp [addTrailersEntry, acquireEntry, verifyRepairEntry, ha, hj]
  · simp [malScraperEntry, select_embeddable_trailer, selectLoop, ha, hj]

/-- Witness for C1's amended theorem: with both providers empty, the batched
orchestration resolves a concrete entry to null even though the search oracle
has an embeddable candidate on offer. -/
theorem C1_amended_no_candidate_witness :
    addTrailersEntry (fun _ => true) (fun _ => ["abcdefghijk"]) "T" none none = none :=
  (C1_amended_no_candidate (fun _ => true) (fun _ => ["abcdefghijk"]) "T"
    none none rfl rfl).1

/-! Claim C2: comparing the two orchestration granularities. -/

/-- Shape of a successfully normalized provider-A candidate: its id is a
non-empty string, its url follows the watch template, and its source is the
provider name. -/
theorem normalize_anilist_shape {a : Option AnilistRawTrailer} {t : Trailer}
    (h : normalize_anilist_trailer a = some t) :
    ∃ v, v ≠ "" ∧ t.id = some v ∧ t.url = watchUrlOf v ∧ t.source = "anilist" := by
  cases a with
  | none => simp [normalize_anilist_trailer] at h
  | some tr =>
    simp only [normalize_anilist_trailer] at h
    split at h
    · exact absurd h (by simp)
    · rename_i vid hvid
      split at h
      · injection h with h'
        subst h'
        exact ⟨vid, tstr_eq_some hvid, rfl, rfl, rfl⟩
      · exact absurd h (by simp)

/-- C2 fails on the code: with provider A yielding a non-embeddable candidate
and provider B an embeddable one, the per-item orchestration returns provider
B's trailer while the batched orchestration (which never consults provider B
once provider A normalized) removes the trailer. -/
theorem C2_counterexample :
    malScraperEntry (fun v => v == "vidB") (fun _ => []) "T"
        (some ⟨some "youtube", some "vidA", none⟩) (some ⟨some "vidB", none, none⟩)
      ≠ addTrailersEntry (fun v => v == "vidB") (fun _ => []) "T"
        (some ⟨some "youtube", some "vidA", none⟩) (some ⟨some "vidB", none, none⟩) := by
  decide

/-- C2 amended: the per-item and batched orchestrations agree on an entry with
a non-empty title whenever provider A yields a valid normalized candidate and,
in case that candidate fails verification, provider B yields none; in general
they differ, because only the per-item orchestration falls back to provider B
after a failed verification of provider A's candidate (and only it searches
when nothing was acquired). -/
theorem C2_amended_equivalence (E : String → Bool) (S : String → List String)
    (title : String) (a : Option AnilistRawTrailer) (j : Option JikanRawTrailer)
    (t : Trailer) (ha : normalize_anilist_trailer a = some t) (htitle : title ≠ "")
    (hbj : E (t.id.getD "") = true ∨ normalize_jikan_trailer j = none) :
    malScraperEntry E S title a j = addTrailersEntry E S title a j := by
  obtain ⟨v, hv, hid, hurl, hsrc⟩ := normalize_anilist_shape ha
  have hcv : candVid t = some v := by
    rw [candVid, hid, pyOr_some_of_ne hv, tstr_some_of_ne hv]
  have hgetD : t.id.getD "" = v := by rw [hid]; rfl
  by_cases hE : E v = true
  · have hupd :
        ({ t with id := some v, source := pyOrStr (some t.source) "anilist" } : Trailer)
          = t := by
      have hps : pyOrStr (some t.source) "anilist" = t.source := by
        rw [hsrc]
        rfl
      cases t
      simp only at hid
      simp [hps, ← hid]
    have hupd2 : ({ t with id := some v } : Trailer) = t := by
      cases t
      simp only at hid
      simp [← hid]
    have hmal : malScraperEntry E S title a j = some t := by
      simp only [malScraperEntry, select_embeddable_trailer, ha, selectLoop, hcv, hE,
        if_true, hupd]
    have hadd : addTrailersEntry E S title a j = some t := by
      simp only [addTrailersEntry, acquireEntry, ha, verifyRepairEntry, hcv, hE,
        if_true, hupd2]
    rw [hmal, hadd]
  · have hj : normalize_jikan_trailer j = none := by
      rcases hbj with hbj | hbj
      · rw [hgetD] at hbj
        exact absurd hbj hE
      · exact hbj
    have hmal : malScraperEntry E S title a j
        = find_embeddable_trailer E S title [v] := by
      simp [malScraperEntry, select_embeddable_trailer, ha, hj, selectLoop, hcv, hE,
        find_embeddable_trailer_mal, htitle]
    have hadd : addTrailersEntry E S title a j
        = find_embeddable_trailer E S title [v] := by
      simp only [addTrailersEntry, acquireEntry, ha, verifyRepairEntry, hcv]
      rw [if_neg hE]
      cases find_embeddable_trailer E S title [v] <;> rfl
    rw [hmal, hadd]

/-- Witness for C2's amended theorem: with provider A valid, provider B empty
and a failing verifier, the two orchestrations produce the same (null) result
on a concrete entry. -/
theorem C2_amended_equivalence_witness :
    malScraperEntry (fun _ => false) (fun _ => []) "T"
        (some ⟨some "youtube", some "vidA", none⟩) none
      = addTrailersEntry (fun _ => false) (fun _ => []) "T"
        (some ⟨some "youtube", some "vidA", none⟩) none :=
  C2_amended_equivalence (fun _ => false) (fun _ => []) "T"
    (some ⟨some "youtube", some "vidA", none⟩) none
    ⟨"youtube", some "vidA", watchUrlOf "vidA", embedUrlOf "vidA",
     thumbUrlOf "vidA", "anilist"⟩ rfl (by decide) (Or.inr rfl)

/-! Claim C7: the search fallback. -/

/-- The inner candidate loop is a first-match search over the candidate list
with the blocked ids filtered out. -/
theorem firstEligible_eq_find (E : String → Bool) (blocked : List String)
    (l : List String) :
    firstEligible E blocked l = l.find? (fun v => !decide (v ∈ blocked) && E v) := by
  induction l with
  | nil => rfl
  | cons v vs ih =>
    by_cases hb : v ∈ blocked
    · simp [firstEligible, hb, List.find?, ih]
    · by_cases he : E v = true
      · simp [firstEligible, hb, he, List.find?]
      · simp [firstEligible, hb, he, List.find?, ih]

/-- The query cascade is a first-match search over the concatenation of the
per-query candidate lists, in declared query order. -/
theorem searchQueriesLoop_eq_find (E : String → Bool) (S : String → List String)
    (blocked : List String) (qs : List String) :
    searchQueriesLoop E S blocked qs
      = (qs.flatMap S).find? (fun v => !decide (v ∈ blocked) && E v) := by
  induction qs with
  | nil => rfl
  | cons q qs ih =>
    simp only [searchQueriesLoop, firstEligible_eq_find, List.flatMap_cons,
      List.find?_append, ih]
    cases (S q).find? (fun v => !decide (v ∈ blocked) && E v) with
    | none => simp
    | some v => simp

/-- C7 fails on the code: mal_scraper's variant returns null for an empty
title without issuing any query, even though the search oracle has a
verified-embeddable, non-blocked candidate for every declared query — so
"null only when every query's every candidate is exhausted" does not hold
there (add_trailers' variant returns that candidate). -/
theorem C7_counterexample :
    find_embeddable_trailer_mal (fun _ => true) (fun _ => ["abcdefghijk"]) "" [] = none ∧
    find_embeddable_trailer (fun _ => true) (fun _ => ["abcdefghijk"]) "" []
      = some (build_youtube_trailer "abcdefghijk" "youtube-search") := ⟨rfl, rfl⟩

/-- C7 amended: for every title and blocked set, add_trailers'
`find_embeddable_trailer` is the first-match search over the three declared
queries in order (candidates in extraction order, blocked ids skipped); a
returned candidate is a verified-embeddable non-blocked id wrapped with
provenance "youtube-search", and null is returned exactly when every
candidate of every query is blocked or not embeddable.  mal_scraper's variant
agrees whenever the title is non-empty, and short-circuits to null on an
empty title. -/
theorem C7_amended_search_fallback (E : String → Bool) (S : String → List String)
    (title : String) (blocked : List String) :
    (find_embeddable_trailer E S title blocked
      = (((queriesFor title).flatMap S).find? (fun v => !decide (v ∈ blocked) && E v)).map
          (fun v => build_youtube_trailer v "youtube-search")) ∧
    (∀ t, find_embeddable_trailer E S title blocked = some t →
        ∃ v, t = build_youtube_trailer v "youtube-search" ∧ v ∉ blocked ∧ E v = true) ∧
    (find_embeddable_trailer E S title blocked = none ↔
        ∀ q ∈ queriesFor title, ∀ v ∈ S q, v ∈ blocked ∨ E v = false) ∧
    (title ≠ "" → find_embeddable_trailer_mal E S title blocked
        = find_embeddable_trailer E S title blocked) := by
  have hchar : find_embeddable_trailer E S title blocked
      = (((queriesFor title).flatMap S).find? (fun v => !decide (v ∈ blocked) && E v)).map
          (fun v => build_youtube_trailer v "youtube-search") := by
    rw [find_embeddable_trailer, searchQueriesLoop_eq_find]
  refine ⟨hchar, ?_, ?_, ?_⟩
  · intro t ht
    rw [hchar] at ht
    cases hf : ((queriesFor title).flatMap S).find?
        (fun v => !decide (v ∈ blocked) && E v) with
    | none => rw [hf] at ht; exact absurd ht (by simp)
    | some v =>
      rw [hf] at ht
      have hp := List.find?_some hf
      simp only [Bool.and_eq_true, Bool.not_eq_true', decide_eq_false_iff_not] at hp
      refine ⟨v, ?_, hp.1, hp.2⟩
      simpa using ht.symm
  · rw [hchar]
    constructor
    · intro hnone q hq v hv
      cases hf : ((queriesFor title).flatMap S).find?
          (fun v => !decide (v ∈ blocked) && E v) with
      | some w => rw [hf] at hnone; exact absurd hnone (by simp)
      | none =>
        have := List.find?_eq_none.mp hf v (List.mem_flatMap.mpr ⟨q, hq, hv⟩)
        simp only [Bool.and_eq_true, Bool.not_eq_true', decide_eq_false_iff_not,
          not_and_or, not_not] at this
        rcases this with h | h
        · exact Or.inl h
        · exact Or.inr (by simpa using h)
    · intro hall
      have hf : ((queriesFor title).flatMap S).find?
          (fun v => !decide (v ∈ blocked) && E v) = none := by
        apply List.find?_eq_none.mpr
        intro v hv
        obtain ⟨q, hq, hvq⟩ := List.mem_flatMap.mp hv
        rcases hall q hq v hvq with h | h
        · simp [h]
        · simp [h]
      rw [hf]
      rfl
  · intro ht
    rw [find_embeddable_trailer_mal, if_neg ht]

/-- Witness for C7's amended theorem: on a concrete environment where the
first query's only candidate is blocked, the fallback returns the second
query's candidate with provenance "youtube-search", and the mal variant
agrees on the non-empty title. -/
theorem C7_amended_search_fallback_witness :
    find_embeddable_trailer_mal (fun _ => true)
        (fun q => if q = "T official trailer" then ["blockedblock"] else ["abcdefghijk"])
        "T" ["blockedblock"]
      = find_embeddable_trailer (fun _ => true)
        (fun q => if q = "T official trailer" then ["blockedblock"] else ["abcdefghijk"])
        "T" ["blockedblock"] :=
  (C7_amended_search_fallback (fun _ => true)
    (fun q => if q = "T official trailer" then ["blockedblock"] else ["abcdefghijk"])
    "T" ["blockedblock"]).2.2.2 (by decide)

/-! Claim C10: extract_youtube_id never returns an empty id, and only
extracts from the platform's hosts. -/

/-- CPython unquoting never turns a non-empty string into an empty one. -/
theorem unquotePlus_ne_nil {l : List Char} (h : l ≠ []) : unquotePlus l ≠ [] := by
  cases l with
  | nil => exact absurd rfl h
  | cons c rest =>
    unfold unquotePlus
    repeat' split
    all_goals simp

/-- Every value produced by the parse_qsl model is non-empty (empty values are
skipped and unquoting preserves non-emptiness). -/
theorem qslPairs_snd_ne_nil {qs : List Char} {p : List Char × List Char}
    (hp : p ∈ qslPairs qs) : p.2 ≠ [] := by
  simp only [qslPairs, List.mem_filterMap] at hp
  obtain ⟨nv, _, hnv⟩ := hp
  simp only [qslField] at hnv
  split at hnv
  · exact absurd hnv (by simp)
  · split at hnv
    · exact absurd hnv (by simp)
    · split at hnv
      · exact absurd hnv (by simp)
      · rename_i hvalne
        injection hnv with hnv'
        rw [← hnv']
        exact unquotePlus_ne_nil hvalne

/-- The first query-string value under a name is non-empty. -/
theorem qsFirst_ne_nil {name qs v : List Char} (h : qsFirst name qs = some v) :
    v ≠ [] := by
  simp only [qsFirst, Option.map_eq_some'] at h
  obtain ⟨p, hfind, hv⟩ := h
  have hmem := List.mem_of_find?_eq_some hfind
  rw [← hv]
  exact qslPairs_snd_ne_nil hmem

/-- C10: for every input string, `extract_youtube_id` returns either None or a
non-empty video id, and it returns None whenever the parsed URL's lowercased
host contains none of the substrings youtu.be, youtube.com,
youtube-nocookie.com. -/
theorem C10_extract_id (url : String) :
    (∀ s, extract_youtube_id url = some s → s ≠ "") ∧
    (∀ p, urlparseChecked url.data = some p →
        containsSub "youtu.be".data (p.netloc.map Char.toLower) = false →
        containsSub "youtube.com".data (p.netloc.map Char.toLower) = false →
        containsSub "youtube-nocookie.com".data (p.netloc.map Char.toLower) = false →
        extract_youtube_id url = none) := by
  constructor
  · intro s hs
    simp only [extract_youtube_id, Option.map_eq_some'] at hs
    obtain ⟨l, hl, hls⟩ := hs
    have hlne : l ≠ [] := by
      simp only [extractIdL] at hl
      split at hl
      · exact absurd hl (by simp)
      · split at hl
        · exact absurd hl (by simp)
        · split at hl
          · split at hl
            · exact absurd hl (by simp)
            · rename_i htokne
              injection hl with hl'
              rw [← hl']
              exact htokne
          · split at hl
            · split at hl
              · split at hl
                · exact absurd hl (by simp)
                · rename_i htokne
                  injection hl with hl'
                  rw [← hl']
                  exact htokne
              · split at hl
                · exact qsFirst_ne_nil hl
                · exact absurd hl (by simp)
            · exact absurd hl (by simp)
    rw [← hls]
    intro hc
    exact hlne (congrArg String.data hc)
  · intro p hp h1 h2 h3
    simp only [extract_youtube_id, extractIdL]
    split
    · rfl
    · rw [hp]
      simp [h1, h2, h3]

/-- Witness for C10: a concrete extraction is non-empty, and a concrete
non-platform URL (whose parse succeeds with host vimeo.com) yields None. -/
theorem C10_extract_id_witness :
    ("abc12345678" ≠ "") ∧ extract_youtube_id "https://vimeo.com/123" = none :=
  ⟨(C10_extract_id "https://youtu.be/abc12345678").1 "abc12345678" rfl,
   (C10_extract_id "https://vimeo.com/123").2
     ⟨"https".data, "vimeo.com".data, "/123".data, [], []⟩
     (by decide) (by decide) (by decide) (by decide)⟩

/-! Claim C9: idempotence of normalization on canonical candidates. -/

/-- Characters of the platform id alphabet are none of the characters that the
URL machinery treats specially. -/
theorem isIdChar_facts {c : Char} (h : isIdChar c = true) :
    c ≠ '\t' ∧ c ≠ '\r' ∧ c ≠ '\n' ∧ c ≠ '#' ∧ c ≠ '&' ∧ c ≠ '+' ∧ c ≠ '%' := by
  refine ⟨?_, ?_, ?_, ?_, ?_, ?_, ?_⟩ <;>
    first
      | (intro hc; rw [hc] at h; exact absurd h (by decide))

/-- Unquoting is the identity on id-alphabet strings. -/
theorem unquotePlus_eq_self {l : List Char} (h : l.all isIdChar) : unquotePlus l = l := by
  induction l with
  | nil => simp [unquotePlus]
  | cons c rest ih =>
    simp only [List.all_cons, Bool.and_eq_true] at h
    obtain ⟨hc, hrest⟩ := h
    obtain ⟨_, _, _, _, _, hplus, hpct⟩ := isIdChar_facts hc
    unfold unquotePlus
    rw [if_neg hplus, if_neg hpct, ih hrest]

/-- Splitting on `&` is trivial for an `&`-free string. -/
theorem splitOnAmp_no_amp {l : List Char} (h : ∀ c ∈ l, c ≠ '&') : splitOnAmp l = [l] := by
  induction l with
  | nil => rfl
  | cons c rest ih =>
    unfold splitOnAmp
    rw [if_neg (h c (List.mem_cons_self c rest))]
    rw [ih (fun x hx => h x (List.mem_cons_of_mem c hx))]

/-- Parsing the canonical watch URL of an id over the platform alphabet
recovers scheme https, host www.youtube.com, path /watch and query `v=` id. -/
theorem urlparse_watchUrl (v : String) (hid : v.data.all isIdChar) :
    urlparseChecked (watchUrlOf v).data
      = some ⟨"https".data, "www.youtube.com".data, "/watch".data,
              'v' :: '=' :: v.data, []⟩ := by
  have hall := List.all_eq_true.mp hid
  have hu0 : dropTabCrLf (lstripControl ((watchUrlOf v).data))
      = "https://www.youtube.com/watch?v=".data ++ v.data := by
    rw [show lstripControl ((watchUrlOf v).data)
        = "https://www.youtube.com/watch?v=".data ++ v.data from rfl]
    rw [dropTabCrLf, List.filter_append]
    rw [show "https://www.youtube.com/watch?v=".data.filter
          (fun c => !(c == '\t' || c == '\r' || c == '\n'))
        = "https://www.youtube.com/watch?v=".data by decide]
    congr 1
    apply List.filter_eq_self.mpr
    intro c hc
    obtain ⟨ht, hr, hn, _, _, _, _⟩ := isIdChar_facts (hall c hc)
    simp [ht, hr, hn]
  have hbreak : ("/watch?v=".data ++ v.data).takeWhile (· != '#')
      = "/watch?v=".data ++ v.data := by
    rw [List.takeWhile_append_of_pos (by decide)]
    congr 1
    apply List.takeWhile_eq_self_iff.mpr
    intro c hc
    obtain ⟨_, _, _, hh, _, _, _⟩ := isIdChar_facts (hall c hc)
    simpa using hh
  have hdropb : ("/watch?v=".data ++ v.data).dropWhile (· != '#') = [] := by
    rw [List.dropWhile_append_of_pos (by decide)]
    apply List.dropWhile_eq_nil_iff.mpr
    intro c hc
    obtain ⟨_, _, _, hh, _, _, _⟩ := isIdChar_facts (hall c hc)
    simpa using hh
  have hsplit : urlsplitChecked ((watchUrlOf v).data)
      = some ⟨"https".data, "www.youtube.com".data, "/watch".data,
              'v' :: '=' :: v.data, []⟩ := by
    simp only [urlsplitChecked, hu0]
    rw [show schemeSplit ("https://www.youtube.com/watch?v=".data ++ v.data)
        = ("https".data, "//www.youtube.com/watch?v=".data ++ v.data) from rfl]
    rw [show netlocSplit ("//www.youtube.com/watch?v=".data ++ v.data)
        = ("www.youtube.com".data, "/watch?v=".data ++ v.data) from rfl]
    simp only [breakAt, hbreak, hdropb]
    rfl
  rw [urlparseChecked, hsplit]
  rfl

/-- Extraction on the canonical watch URL recovers exactly the id. -/
theorem extract_watchUrl (v : String) (hne : v.data ≠ []) (hid : v.data.all isIdChar) :
    extract_youtube_id (watchUrlOf v) = some v := by
  have hall := List.all_eq_true.mp hid
  have hamp : ∀ c ∈ 'v' :: '=' :: v.data, c ≠ '&' := by
    intro c hc
    rcases List.mem_cons.mp hc with h | hc2
    · rw [h]; decide
    · rcases List.mem_cons.mp hc2 with h | hc3
      · rw [h]; decide
      · exact (isIdChar_facts (hall c hc3)).2.2.2.2.1
  have hfield : qslField ('v' :: '=' :: v.data) = some (['v'], v.data) := by
    rw [qslField, if_neg (by simp)]
    simp only []
    rw [show ('v' :: '=' :: v.data).dropWhile (· != '=') = '=' :: v.data from rfl]
    rw [show ('v' :: '=' :: v.data).takeWhile (· != '=') = ['v'] from rfl]
    simp only []
    rw [if_neg hne, unquotePlus_eq_self hid]
    rw [show unquotePlus ['v'] = ['v'] by simp [unquotePlus]]
  have hqs : qsFirst ['v'] ('v' :: '=' :: v.data) = some v.data := by
    rw [qsFirst, qslPairs, splitOnAmp_no_amp hamp]
    simp only [List.filterMap_cons, List.filterMap_nil, hfield]
    simp [List.find?]
  have hnil : (watchUrlOf v).data ≠ [] := by
    rw [show (watchUrlOf v).data
        = "https://www.youtube.com/watch?v=".data ++ v.data from rfl]
    simp
  have c1 : containsSub "youtu.be".data ("www.youtube.com".data.map Char.toLower)
      = false := by decide
  have c2 : containsSub "youtube.com".data ("www.youtube.com".data.map Char.toLower)
      = true := by decide
  have c3 : startsL "/embed/".data "/watch".data = false := by decide
  have hx : extractIdL (watchUrlOf v).data = some v.data := by
    rw [extractIdL, if_neg hnil, urlparse_watchUrl v hid]
    simp [c1, c2, c3, hqs]
    rw [if_neg (by decide), if_pos (by decide)]
  rw [extract_youtube_id, hx]
  cases v
  rfl

set_option maxHeartbeats 2000000 in
/-- C9: normalization is idempotent on an already-canonical candidate: feeding
the canonical dict of a provider-A candidate back through the provider-A
normalizer, or that of a provider-B candidate through the provider-B
normalizer (which re-derives the id from the canonical watch URL, since the
canonical dict spells the keys it reads differently), returns the same
candidate field for field. -/
theorem C9_normalize_idempotent (v : String) (hne : v ≠ "") (hid : v.data.all isIdChar) :
    normalize_anilist_trailer (some (anilistViewOf (canonicalCandidate v "anilist")))
      = some (canonicalCandidate v "anilist") ∧
    normalize_jikan_trailer (some (jikanViewOf (canonicalCandidate v "jikan")))
      = some (canonicalCandidate v "jikan") := by
  have hdne : v.data ≠ [] := by
    intro hc
    apply hne
    cases v with
    | mk d =>
      simp only at hc
      rw [hc]
  have hwne : watchUrlOf v ≠ "" := by
    intro hc
    have h2 := congrArg String.data hc
    rw [show (watchUrlOf v).data
        = "https://www.youtube.com/watch?v=".data ++ v.data from rfl] at h2
    simp at h2
  have hthumbne : thumbUrlOf v ≠ "" := by
    intro hc
    have h2 := congrArg String.data hc
    rw [show (thumbUrlOf v).data
        = ("https://i.ytimg.com/vi/".data ++ v.data) ++ "/hqdefault.jpg".data from rfl] at h2
    simp at h2
  constructor
  · rw [normalize_anilist_trailer]
    simp only [anilistViewOf, canonicalCandidate]
    rw [tstr_some_of_ne hne]
    rw [show lowerStr (Option.getD (some "youtube") "") = "youtube" from rfl]
    show (if ("youtube" : String) = "youtube" then
        some { site := "youtube", id := some v, url := watchUrlOf v,
               embedUrl := embedUrlOf v,
               thumbnail := pyOrStr (some (thumbUrlOf v)) (thumbUrlOf v),
               source := "anilist" }
      else none) = some (canonicalCandidate v "anilist")
    rw [if_pos rfl, pyOrStr_some_of_ne hthumbne]
    rfl
  · rw [normalize_jikan_trailer]
    simp only [jikanViewOf, canonicalCandidate]
    rw [show Option.getD (none : Option String) "" = "" from rfl]
    rw [show Option.getD (some (watchUrlOf v)) "" = watchUrlOf v from rfl]
    rw [show extract_youtube_id "" = none from rfl]
    rw [extract_watchUrl v hdne hid]
    rw [show pyOr (none : Option String) (pyOr none (some v)) = some v from rfl]
    rw [tstr_some_of_ne hne]
    rw [if_neg (fun hcon => Option.noConfusion hcon.1)]
    rw [pyOrStr_some_of_ne hwne]
    rfl

/-- Witness for C9: both idempotence equations instantiated at a concrete
canonical candidate. -/
theorem C9_normalize_idempotent_witness :
    normalize_anilist_trailer
        (some (anilistViewOf (canonicalCandidate "dQw4w9WgXcQ" "anilist")))
      = some (canonicalCandidate "dQw4w9WgXcQ" "anilist") ∧
    normalize_jikan_trailer
        (some (jikanViewOf (canonicalCandidate "dQw4w9WgXcQ" "jikan")))
      = some (canonicalCandidate "dQw4w9WgXcQ" "jikan") :=
  C9_normalize_idempotent "dQw4w9WgXcQ" (by decide) (by decide)

/-! Claim C5: the embedded-JSON extractor on balanced objects. -/

/-- Composing two offset shifts of a scan result. -/
theorem map_add_add (o : Option Nat) (a b : Nat) :
    (o.map (· + a)).map (· + b) = o.map (· + (a + b)) := by
  cases o with
  | none => rfl
  | some x => simp [Nat.add_assoc]

/-- One in-string step on a plain character. -/
theorem scanAux_instr_plain {c : Char} (hq : (c == '"') = false)
    (hb : (c == '\\') = false) (cs : List Char) (d : Int) :
    scanAux (c :: cs) d true false = (scanAux cs d true false).map (· + 1) := by
  rw [scanAux]
  simp [hq, hb]

/-- One in-string escape pair. -/
theorem scanAux_instr_esc (c : Char) (cs : List Char) (d : Int) :
    scanAux ('\\' :: c :: cs) d true false = (scanAux cs d true false).map (· + 2) := by
  rw [scanAux]
  simp only [if_true, Bool.false_eq_true, if_false, beq_self_eq_true, eq_self_iff_true]
  rw [scanAux]
  simp [map_add_add]

/-- Closing quote of a string. -/
theorem scanAux_instr_close (cs : List Char) (d : Int) :
    scanAux ('"' :: cs) d true false = (scanAux cs d false false).map (· + 1) := by
  rw [scanAux]
  simp

/-- One out-of-string step on a plain character. -/
theorem scanAux_outstr_plain {c : Char} (hq : (c == '"') = false)
    (hob : (c == '{') = false) (hcb : (c == '}') = false) (cs : List Char) (d : Int) :
    scanAux (c :: cs) d false false = (scanAux cs d false false).map (· + 1) := by
  rw [scanAux]
  simp [hq, hob, hcb]

/-- Opening quote of a string. -/
theorem scanAux_outstr_open (cs : List Char) (d : Int) :
    scanAux ('"' :: cs) d false false = (scanAux cs d true false).map (· + 1) := by
  rw [scanAux]
  simp

/-- Opening brace: depth increases. -/
theorem scanAux_obrace (cs : List Char) (d : Int) :
    scanAux ('{' :: cs) d false false = (scanAux cs (d + 1) false false).map (· + 1) := by
  rw [scanAux]
  simp

/-- Closing brace away from depth one: depth decreases. -/
theorem scanAux_cbrace_pos (cs : List Char) (d : Int) (hd : ¬(d - 1 = 0)) :
    scanAux ('}' :: cs) d false false = (scanAux cs (d - 1) false false).map (· + 1) := by
  rw [scanAux]
  simp [hd]

/-- Closing brace at depth one: the scan ends here. -/
theorem scanAux_cbrace_zero (cs : List Char) (d : Int) (hd : d - 1 = 0) :
    scanAux ('}' :: cs) d false false = some 1 := by
  rw [scanAux]
  simp [hd]

/-- Scanning a well-formed string body from inside a string (no pending
escape) stays inside the string and advances by the body's length. -/
theorem scanAux_sitems (s : List SItem) (h : s.all sitemOK = true) (rest : List Char)
    (d : Int) :
    scanAux (sitemsChars s ++ rest) d true false
      = (scanAux rest d true false).map (· + (sitemsChars s).length) := by
  induction s with
  | nil =>
    rw [show sitemsChars [] = [] from rfl]
    simp
  | cons it s ih =>
    simp only [List.all_cons, Bool.and_eq_true] at h
    obtain ⟨hit, hs⟩ := h
    cases it with
    | plain c =>
      simp only [sitemOK, Bool.and_eq_true, Bool.not_eq_true', beq_eq_false_iff_ne] at hit
      obtain ⟨hq, hb⟩ := hit
      rw [show sitemsChars (SItem.plain c :: s) = c :: sitemsChars s from rfl]
      rw [List.cons_append,
        scanAux_instr_plain (beq_eq_false_iff_ne.mpr hq) (beq_eq_false_iff_ne.mpr hb),
        ih hs, map_add_add]
      rw [show (sitemsChars s).length + 1 = (c :: sitemsChars s).length from by simp]
    | esc c =>
      rw [show sitemsChars (SItem.esc c :: s) = '\\' :: c :: sitemsChars s from rfl]
      rw [List.cons_append, List.cons_append, scanAux_instr_esc, ih hs, map_add_add]
      rw [show ('\\' :: c :: sitemsChars s).length = (sitemsChars s).length + 2 from by
        simp]

/-- Scanning a well-formed object body outside any string, at positive brace
depth, never ends the scan and advances by the body's length. -/
theorem scanAux_body (b : JBody) (h : jbodyOK b = true) :
    ∀ (rest : List Char) (d : Int), 1 ≤ d →
    scanAux (jbodyChars b ++ rest) d false false
      = (scanAux rest d false false).map (· + (jbodyChars b).length) := by
  induction b with
  | nil =>
    intro rest d _
    rw [show jbodyChars JBody.nil = [] from rfl]
    simp
  | plainC c k ih =>
    intro rest d hd
    simp only [jbodyOK, Bool.and_eq_true, Bool.not_eq_true', beq_eq_false_iff_ne] at h
    obtain ⟨⟨⟨hq, hob⟩, hcb⟩, hk⟩ := h
    rw [show jbodyChars (JBody.plainC c k) = c :: jbodyChars k from rfl]
    rw [List.cons_append,
      scanAux_outstr_plain (beq_eq_false_iff_ne.mpr hq) (beq_eq_false_iff_ne.mpr hob)
        (beq_eq_false_iff_ne.mpr hcb),
      ih hk rest d hd, map_add_add]
    rw [show (jbodyChars k).length + 1 = (c :: jbodyChars k).length from by simp]
  | strC s k ih =>
    intro rest d hd
    rw [show jbodyOK (JBody.strC s k) = (s.all sitemOK && jbodyOK k) from rfl,
      Bool.and_eq_true] at h
    obtain ⟨hs, hk⟩ := h
    rw [show jbodyChars (JBody.strC s k)
        = '"' :: (sitemsChars s ++ ('"' :: jbodyChars k)) from rfl]
    rw [List.cons_append, List.append_assoc, List.cons_append]
    rw [scanAux_outstr_open, scanAux_sitems s hs, scanAux_instr_close,
      ih hk rest d hd, map_add_add, map_add_add, map_add_add]
    rw [show (jbodyChars k).length + (1 + ((sitemsChars s).length + 1))
        = ('"' :: (sitemsChars s ++ ('"' :: jbodyChars k))).length from by
      simp [List.length_append]
      omega]
  | objC bb k ihb ihk =>
    intro rest d hd
    rw [show jbodyOK (JBody.objC bb k) = (jbodyOK bb && jbodyOK k) from rfl,
      Bool.and_eq_true] at h
    obtain ⟨hbb, hk⟩ := h
    rw [show jbodyChars (JBody.objC bb k)
        = '{' :: (jbodyChars bb ++ ('}' :: jbodyChars k)) from rfl]
    rw [List.cons_append, List.append_assoc, List.cons_append]
    rw [scanAux_obrace, ihb hbb ('}' :: (jbodyChars k ++ rest)) (d + 1) (by omega)]
    rw [scanAux_cbrace_pos _ _ (show ¬(d + 1 - 1 = 0) from by omega)]
    rw [show (d + 1 - 1 : Int) = d from by omega]
    rw [ihk hk rest d hd, map_add_add, map_add_add, map_add_add]
    rw [show (jbodyChars k).length + (1 + ((jbodyChars bb).length + 1))
        = ('{' :: (jbodyChars bb ++ ('}' :: jbodyChars k))).length from by
      simp [List.length_append]
      omega]

/-- Scanning a full balanced object from depth zero terminates exactly at its
closing brace. -/
theorem scanAux_obj (b : JBody) (h : jbodyOK b = true) (rest : List Char) :
    scanAux (jObjChars b ++ rest) 0 false false = some (jObjChars b).length := by
  rw [show jObjChars b ++ rest = '{' :: (jbodyChars b ++ ('}' :: rest)) from by
    simp [jObjChars]]
  rw [scanAux]
  have h1 : ('{' == '"') = false := by decide
  have h2 : ('}' == '"') = false := by decide
  have h3 : ('}' == '{') = false := by decide
  simp only [h1, Bool.false_eq_true, if_false, beq_self_eq_true, if_true]
  rw [scanAux_body b h ('}' :: rest) (0 + 1) (by omega)]
  rw [scanAux]
  simp only [h2, h3, Bool.false_eq_true, if_false, beq_self_eq_true, if_true]
  rw [if_pos (show (0 + 1 - 1 : Int) = 0 from by omega)]
  rw [show (some 1).map (· + (jbodyChars b).length) = some (1 + (jbodyChars b).length)
    from rfl]
  rw [show (jObjChars b).length = 1 + (jbodyChars b).length + 1 from by
    simp [jObjChars]
    omega]
  rfl

/-- C5: whenever the fixed marker occurs in the document (first at position p)
and is immediately followed by a balanced JSON-like object — double-quoted
strings with backslash-escaped quotes and literal braces inside strings
included — the extractor returns exactly that object's character sequence:
in-string state honours escapes, brace depth is counted only outside strings,
and extraction terminates exactly when depth returns to zero, neither early
nor late. -/
theorem C5_extractor_balanced (html : List Char) (p : Nat) (b : JBody)
    (rest : List Char) (hfind : subIdx playerMarker.data html = some p)
    (hdrop : html.drop (p + playerMarker.data.length) = jObjChars b ++ rest)
    (hwf : jbodyOK b = true) :
    extract_player_response_raw html = some (jObjChars b) := by
  rw [extract_player_response_raw, hfind]
  simp only [hdrop, scanAux_obj b hwf rest]
  rw [List.take_left']
  rfl

/-- Witness for C5: a concrete document whose embedded object contains a
string with an escaped quote and literal braces inside a string value. -/
theorem C5_extractor_balanced_witness :
    extract_player_response_raw
        ("junk ytInitialPlayerResponse = ".data
          ++ (jObjChars (JBody.strC [SItem.plain 'a', SItem.esc '"', SItem.plain '{']
                (JBody.plainC ':'
                  (JBody.strC [SItem.plain 'v', SItem.plain 'a', SItem.plain '{',
                    SItem.plain 'l', SItem.plain '}', SItem.plain 'u', SItem.plain 'e']
                    JBody.nil)))
              ++ ";tail".data))
      = some (jObjChars (JBody.strC [SItem.plain 'a', SItem.esc '"', SItem.plain '{']
          (JBody.plainC ':'
            (JBody.strC [SItem.plain 'v', SItem.plain 'a', SItem.plain '{',
              SItem.plain 'l', SItem.plain '}', SItem.plain 'u', SItem.plain 'e']
              JBody.nil)))) :=
  C5_extractor_balanced _ 5 _ ";tail".data (by decide) (by decide) (by decide)

end Rekonime
